import Mathlib

/-!
Verification of the item-registry HTTP service in `src/server.py`.

The service keeps one module-level Python dict `items` mapping item ids
(strings) to JSON-encoded item records, and exposes six endpoints
(list, get, create, replace/PUT, partial-update/PATCH, delete).  We embed
the module shallowly:

* the Python dict is an insertion-ordered association list
  `Registry = List (String × PyVal)`, where `PyVal = Option EncodedItem`
  models a Python value that may be `None` (a Python dict can in principle
  hold `None` as a value, and `dict.get` returns `None` both for a missing
  key and for a stored `None`, so we keep that distinction explicit);
* `pyGet`, `pySet`, `pyPop` mirror `items.get`, `items[k] = v`,
  `items.pop(k, None)` on such a dict;
* `jsonable_encoder` turns a validated `Item` model into the JSON record
  actually stored (every field present, i.e. `some`); `validateItem`
  models constructing `Item(**record)`, which fails when a required field
  is missing/null;
* each route handler becomes a function `... → Registry → ApiResult × Registry`
  returning the HTTP outcome together with the new registry state; the
  handlers are translated line by line from `server.py`, including the
  `item = items.get(item_id)` rebinding in the PUT handler that shadows
  the request payload.

Request bodies are the validated models the framework hands the handlers:
an `Item` for POST/PUT, and a `PartialItem` for PATCH with two levels of
optionality per field: the outer level records whether the field was
present in the request body (pydantic's fields-set, which is what
`dict(exclude_unset=True)` keeps), and the inner level is the field's
JSON value, which may itself be null — the source model declares every
field `Optional[...]`, so an explicit null is schema-valid, is included by
`exclude_unset`, and is written into the stored record *unvalidated* by
`copy(update=...)`. A later `Item(**record)` on such a poisoned record
raises a validation error that escapes the handler.
-/

namespace ItemsApi

/-- The validated `Item` pydantic model (`server.py` lines 28-32).
Prices are Python floats on which the service does no arithmetic, only
storage and copying, so we carry them as exact rationals. -/
structure Item where
  name : String
  description : String
  price : Rat
  tags : List String
deriving DecidableEq, Repr

/-- The `PartialItem` pydantic model (`server.py` lines 34-38): every field
independently optional. The outer `Option` says whether the field is
present in the patch body (`dict(exclude_unset=True)` keeps exactly these);
the inner `Option` is the transmitted JSON value, `none` being an explicit
null, which the `Optional[...]` field types accept as schema-valid. -/
structure PartialItem where
  name : Option (Option String) := none
  description : Option (Option String) := none
  price : Option (Option Rat) := none
  tags : Option (Option (List String)) := none
deriving DecidableEq, Repr

/-- The JSON object shape of a stored record: a dict whose four entries may
in principle hold null. `jsonable_encoder` only ever produces records with
every field present. -/
structure EncodedItem where
  name : Option String
  description : Option String
  price : Option Rat
  tags : Option (List String)
deriving DecidableEq, Repr

/-- A Python value stored in (or read from) the dict: possibly `None`. -/
abbrev PyVal := Option EncodedItem

/-- The module-level dict `items` (line 26): insertion-ordered map. -/
abbrev Registry := List (String × PyVal)

/-- `items.get(k)`: first binding for `k`, else `None`. A stored `None`
and a missing key both come back as `none`, as in Python. -/
def pyGet : Registry → String → PyVal
  | [], _ => none
  | (k, v) :: rest, key => if k = key then v else pyGet rest key

/-- `items[k] = v`: overwrite in place if the key exists, else append. -/
def pySet : Registry → String → PyVal → Registry
  | [], key, v => [(key, v)]
  | (k, v0) :: rest, key, v =>
    if k = key then (key, v) :: rest else (k, v0) :: pySet rest key v

/-- `items.pop(k, None)`: remove the binding for `k` and return its value,
or return `None` leaving the dict unchanged when `k` is absent. -/
def pyPop : Registry → String → PyVal × Registry
  | [], _ => (none, [])
  | (k, v) :: rest, key =>
    if k = key then (v, rest)
    else
      let r := pyPop rest key
      (r.1, (k, v) :: r.2)

/-- The keys of the dict, in insertion order. -/
def keys (d : Registry) : List String := d.map Prod.fst

/-- `jsonable_encoder(item)` on an `Item` model: the JSON record with all
four fields present. -/
def jsonable_encoder (i : Item) : EncodedItem :=
  { name := some i.name, description := some i.description,
    price := some i.price, tags := some i.tags }

/-- `Item(**record)` (line 215): pydantic validation of a stored record.
Every field of `Item` is required, so validation fails exactly when some
field is missing/null. -/
def validateItem (e : EncodedItem) : Except String Item :=
  match e.name, e.description, e.price, e.tags with
  | some n, some d, some p, some t => .ok { name := n, description := d, price := p, tags := t }
  | _, _, _, _ => .error "value is not a valid Item"

/-- `item_model.copy(update=update_data)` (line 217) followed by
`jsonable_encoder(updated_item)` (line 218), fused: `update_data` holds the
patch's present fields (explicit nulls included), `copy(update=...)` does
*no validation*, so a present field overwrites the stored field with the
transmitted value even when that value is null, and the encoder then lays
the possibly-null fields out as the stored JSON record. -/
def copyUpdate (m : Item) (p : PartialItem) : EncodedItem :=
  { name := p.name.getD (some m.name),
    description := p.description.getD (some m.description),
    price := p.price.getD (some m.price),
    tags := p.tags.getD (some m.tags) }

/-- ASCII single quote, used by the f-string error messages. -/
def squote (s : String) : String :=
  String.singleton (Char.ofNat 39) ++ s ++ String.singleton (Char.ofNat 39)

/-- The observable HTTP outcome of one handler call. -/
inductive ApiResult where
  /-- `JSONResponse({"message": m}, status_code=s)`. -/
  | jsonMessage (status : Nat) (message : String)
  /-- Create success: 201, body = the created item, `Location` header. -/
  | created (status : Nat) (body : Item) (location : String)
  /-- Get: 200 with the item record, or JSON null when absent. -/
  | jsonBody (status : Nat) (body : PyVal)
  /-- List: 200 with the whole mapping. -/
  | listing (status : Nat) (body : Registry)
  /-- `Response()` under a route whose declared status is `s` (204). -/
  | noContent (status : Nat)
  /-- An exception escaping the handler (would surface as HTTP 500). -/
  | fault (detail : String)
deriving DecidableEq, Repr

/-- GET `/items` (lines 47-57): return the whole dict, no mutation. -/
def get_items (items : Registry) : ApiResult × Registry :=
  (.listing 200 items, items)

/-- GET `/items/{item_id}` (lines 59-84): `return items.get(item_id)`. -/
def get_item (item_id : String) (items : Registry) : ApiResult × Registry :=
  (.jsonBody 200 (pyGet items item_id), items)

/-- POST `/items/{item_id}` (lines 86-137). `base_url` is
`str(request.base_url)` (always ends in a slash). -/
def create_item (base_url : String) (item_id : String) (item : Item)
    (items : Registry) : ApiResult × Registry :=
  if (pyGet items item_id).isSome then
    -- items.get(item_id) is not None → 409
    (.jsonMessage 409 ("Item with id " ++ squote item_id ++ " already exists."), items)
  else
    (.created 201 item (base_url ++ "items/" ++ item_id),
      pySet items item_id (some (jsonable_encoder item)))

/-- DELETE `/items/{item_id}` (lines 139-151): `items.pop(item_id, None)`;
404 when the popped value is `None`, else an empty 204. -/
def delete_item (item_id : String) (items : Registry) : ApiResult × Registry :=
  let popped := pyPop items item_id
  match popped.1 with
  | none =>
    (.jsonMessage 404 ("No item with id " ++ squote item_id ++ " found to delete."), popped.2)
  | some _ => (.noContent 204, popped.2)

/-- PUT `/items/{item_id}` (lines 154-187). The handler rebinds
`item = items.get(item_id)`, shadowing the request payload, then re-encodes
and re-stores that stored record; the payload is never written. -/
def update_item (item_id : String) (_item : Item) (items : Registry) :
    ApiResult × Registry :=
  match pyGet items item_id with
  | none =>
    (.jsonMessage 404 ("Item with id " ++ squote item_id ++ " does not exist."), items)
  | some stored =>
    -- update_item_encoded = jsonable_encoder(item); encoding an already
    -- JSON-shaped dict is the identity, so the stored record goes back in.
    (.noContent 204, pySet items item_id (some stored))

/-- PATCH `/items/{item_id}` (lines 189-220): validate the stored record
into an `Item` (this `Item(**item)` call raises out of the handler when a
previous null-valued patch left a null field behind), then overwrite the
fields present in the patch — nulls included, unvalidated — and store the
re-encoded merged record. The source names the patch parameter after the
`PartialItem` model. -/
def edit_item (item_id : String) (patch : PartialItem) (items : Registry) :
    ApiResult × Registry :=
  match pyGet items item_id with
  | none =>
    (.jsonMessage 404 ("Item with id " ++ squote item_id ++ " does not exist."), items)
  | some stored =>
    match validateItem stored with
    | .error e => (.fault e, items)
    | .ok item_model =>
      (.noContent 204, pySet items item_id (some (copyUpdate item_model patch)))

/-- One well-formed inbound request, carrying the body the framework's
validation layer would hand the handler. -/
inductive Request where
  | listAll
  | getOne (item_id : String)
  | create (base_url item_id : String) (item : Item)
  | replace (item_id : String) (item : Item)
  | patchOne (item_id : String) (patch : PartialItem)
  | remove (item_id : String)
deriving DecidableEq, Repr

/-- Dispatch one request against the registry. -/
def runRequest : Request → Registry → ApiResult × Registry
  | .listAll, items => get_items items
  | .getOne i, items => get_item i items
  | .create b i it, items => create_item b i it items
  | .replace i it, items => update_item i it items
  | .patchOne i p, items => edit_item i p items
  | .remove i, items => delete_item i items

/-- Run a request sequence from a starting registry, collecting outcomes. -/
def runAll : List Request → Registry → List ApiResult × Registry
  | [], items => ([], items)
  | r :: rs, items =>
    let step := runRequest r items
    let rest := runAll rs step.2
    (step.1 :: rest.1, rest.2)

/-- A stored record passes pydantic validation. -/
def validOk (e : EncodedItem) : Bool :=
  match validateItem e with
  | .ok _ => true
  | .error _ => false

/-- A dict entry is well formed: a non-null record that validates. -/
def wfPair : String × PyVal → Bool
  | (_, some e) => validOk e
  | (_, none) => false

/-- Every entry of the dict is well formed. -/
def wf (d : Registry) : Bool := d.all wfPair

/-- No entry of the dict holds a null value. -/
def noNull (d : Registry) : Bool := d.all fun p => p.2.isSome

/-- An outcome the request boundary accounts for: a structured JSON error
(404 or 409) or one of the declared success shapes — never a fault. -/
def wellMapped : ApiResult → Bool
  | .jsonMessage s _ => s == 404 || s == 409
  | .created s _ _ => s == 201
  | .jsonBody s _ => s == 200
  | .listing s _ => s == 200
  | .noContent s => s == 204
  | .fault _ => false

/-- Sample item fixture (integer price so that concrete statements evaluate
by kernel reduction; the theorems themselves are generic in the price). -/
def soda : Item :=
  { name := "Soda", description := "A tasty, sugary drink.", price := 1,
    tags := ["drink", "tasty"] }

/-- A second sample item, used as the ignored/conflicting payload. -/
def pizza : Item :=
  { name := "Pizza", description := "Cheesy and filling.", price := 8,
    tags := ["food"] }

/-- A one-entry registry fixture holding the encoded sample item. -/
def sodaReg : Registry := [("soda", some (jsonable_encoder soda))]

/-- A patch field that is either omitted or carries a non-null value —
i.e. anything except an explicit JSON null. -/
def presentNonNull : Option (Option α) → Bool
  | some none => false
  | _ => true

/-- A patch none of whose present fields is an explicit null. -/
def nullFree (p : PartialItem) : Bool :=
  presentNonNull p.name && presentNonNull p.description &&
    presentNonNull p.price && presentNonNull p.tags

/-- A request whose PATCH body (if any) sets no field to an explicit null. -/
def nullFreeReq : Request → Bool
  | .patchOne _ p => nullFree p
  | _ => true

/-- The patch `{"price": null}`: schema-valid for `PartialItem`, price
present and explicitly null. -/
def nullPricePatch : PartialItem := { price := some none }

/-- The registry the program reaches by creating "soda" and then patching
it with `{"price": null}`: the stored record now has a null price. -/
def poisonedReg : Registry :=
  (runAll [.create "http://t/" "soda" soda, .patchOne "soda" nullPricePatch] []).2

/-- The poisoned record stored under "soda" in `poisonedReg`. -/
def poisonedRec : EncodedItem :=
  { name := some "Soda", description := some "A tasty, sugary drink.",
    price := none, tags := some ["drink", "tasty"] }

theorem pyGet_pySet_self (d : Registry) (k : String) (v : PyVal) :
    pyGet (pySet d k v) k = v := by
  induction d with
  | nil => simp [pySet, pyGet]
  | cons hd tl ih =>
    obtain ⟨k0, v0⟩ := hd
    by_cases h : k0 = k <;> simp [pySet, pyGet, h, ih]

theorem keys_cons (k0 : String) (v0 : PyVal) (tl : Registry) :
    keys ((k0, v0) :: tl) = k0 :: keys tl := rfl

theorem pyGet_eq_none_of_not_mem (d : Registry) (k : String) (h : k ∉ keys d) :
    pyGet d k = none := by
  induction d with
  | nil => rfl
  | cons hd tl ih =>
    obtain ⟨k0, v0⟩ := hd
    rw [keys_cons, List.mem_cons] at h
    push_neg at h
    simp [pyGet, Ne.symm h.1, ih h.2]

theorem pyPop_of_not_mem (d : Registry) (k : String) (h : k ∉ keys d) :
    pyPop d k = (none, d) := by
  induction d with
  | nil => rfl
  | cons hd tl ih =>
    obtain ⟨k0, v0⟩ := hd
    rw [keys_cons, List.mem_cons] at h
    push_neg at h
    simp [pyPop, Ne.symm h.1, ih h.2]

theorem not_mem_keys_pyPop (d : Registry) (k : String)
    (hnd : (keys d).Nodup) : k ∉ keys (pyPop d k).2 := by
  induction d with
  | nil => simp [pyPop, keys]
  | cons hd tl ih =>
    obtain ⟨k0, v0⟩ := hd
    rw [keys_cons, List.nodup_cons] at hnd
    by_cases h : k0 = k
    · subst h
      simpa [pyPop] using hnd.1
    · intro hmem
      simp only [pyPop, if_neg h] at hmem
      rw [keys_cons, List.mem_cons] at hmem
      cases hmem with
      | inl he => exact h he.symm
      | inr he => exact ih hnd.2 he

theorem all_pySet (P : String × PyVal → Bool) (d : Registry) (k : String)
    (v : PyVal) (hd : d.all P = true) (hv : P (k, v) = true) :
    (pySet d k v).all P = true := by
  induction d with
  | nil => simp [pySet, hv]
  | cons hd0 tl ih =>
    obtain ⟨k0, v0⟩ := hd0
    simp only [List.all_cons, Bool.and_eq_true] at hd
    by_cases h : k0 = k <;>
      simp [pySet, h, hd.1, hd.2, hv, ih hd.2]

theorem all_pyPop (P : String × PyVal → Bool) (d : Registry) (k : String)
    (hd : d.all P = true) : (pyPop d k).2.all P = true := by
  induction d with
  | nil => simp [pyPop]
  | cons hd0 tl ih =>
    obtain ⟨k0, v0⟩ := hd0
    simp only [List.all_cons, Bool.and_eq_true] at hd
    by_cases h : k0 = k <;>
      simp [pyPop, h, hd.1, hd.2, ih hd.2]

theorem all_of_pyGet (P : String × PyVal → Bool) (d : Registry) (k : String)
    (v : PyVal) (hd : d.all P = true) (hg : pyGet d k = v) (hne : v.isSome) :
    P (k, v) = true := by
  induction d with
  | nil =>
    simp only [pyGet] at hg
    subst hg
    simp at hne
  | cons hd0 tl ih =>
    obtain ⟨k0, v0⟩ := hd0
    simp only [List.all_cons, Bool.and_eq_true] at hd
    by_cases h : k0 = k
    · subst h
      simp only [pyGet, if_pos rfl] at hg
      simpa [← hg] using hd.1
    · simp only [pyGet, if_neg h] at hg
      exact ih hd.2 hg

/-- Re-validating the encoding of a validated item gives it back. -/
theorem validateItem_jsonable_encoder (i : Item) :
    validateItem (jsonable_encoder i) = .ok i := rfl

theorem wf_noNull (d : Registry) (h : wf d = true) : noNull d = true := by
  simp only [wf, noNull, List.all_eq_true] at *
  intro p hp
  have hw := h p hp
  obtain ⟨ks, v⟩ := p
  cases v with
  | none => simp [wfPair] at hw
  | some e => simp

/-- Under well-formedness, a `pyGet` hit is a validating record. -/
theorem validOk_of_pyGet (d : Registry) (k : String) (e : EncodedItem)
    (hwf : wf d = true) (hg : pyGet d k = some e) : validOk e = true := by
  have := all_of_pyGet wfPair d k (some e) hwf hg rfl
  simpa [wfPair] using this

/-- A field that is absent or carries a non-null value merges (over a
non-null default) to a non-null value. -/
theorem presentNonNull_getD (o : Option (Option α)) (x : α)
    (h : presentNonNull o = true) : (o.getD (some x)).isSome = true := by
  cases o with
  | none => rfl
  | some v =>
    cases v with
    | none => simp [presentNonNull] at h
    | some w => rfl

/-- A record with all four fields non-null passes validation. -/
theorem validOk_of_isSome (e : EncodedItem)
    (h1 : e.name.isSome = true) (h2 : e.description.isSome = true)
    (h3 : e.price.isSome = true) (h4 : e.tags.isSome = true) :
    validOk e = true := by
  obtain ⟨n, dsc, pr, t⟩ := e
  cases n with
  | none => simp at h1
  | some nv =>
    cases dsc with
    | none => simp at h2
    | some dv =>
      cases pr with
      | none => simp at h3
      | some pv =>
        cases t with
        | none => simp at h4
        | some tv => rfl

/-- Merging a null-free patch into a valid item yields a record that still
validates. -/
theorem validOk_copyUpdate (m : Item) (p : PartialItem)
    (h : nullFree p = true) : validOk (copyUpdate m p) = true := by
  simp only [nullFree, Bool.and_eq_true] at h
  exact validOk_of_isSome _ (presentNonNull_getD _ _ h.1.1.1)
    (presentNonNull_getD _ _ h.1.1.2) (presentNonNull_getD _ _ h.1.2)
    (presentNonNull_getD _ _ h.2)

/-- One dispatched null-free request keeps the registry well formed and
produces a boundary-accounted outcome. -/
theorem runRequest_wf (r : Request) (d : Registry) (hwf : wf d = true)
    (hnf : nullFreeReq r = true) :
    wellMapped (runRequest r d).1 = true ∧ wf (runRequest r d).2 = true := by
  cases r with
  | listAll => exact ⟨rfl, hwf⟩
  | getOne i => exact ⟨rfl, hwf⟩
  | create b i it =>
    by_cases h : (pyGet d i).isSome = true
    · simp [runRequest, create_item, h, wellMapped, hwf]
    · refine ⟨by simp [runRequest, create_item, h, wellMapped], ?_⟩
      simp only [runRequest, create_item, if_neg h]
      exact all_pySet wfPair d i _ hwf
        (by simp [wfPair, validOk, validateItem_jsonable_encoder])
  | replace i it =>
    cases hg : pyGet d i with
    | none =>
      simp only [runRequest, update_item, hg]
      exact ⟨rfl, hwf⟩
    | some stored =>
      simp only [runRequest, update_item, hg]
      refine ⟨rfl, ?_⟩
      have hstored := all_of_pyGet wfPair d i (some stored) hwf hg rfl
      exact all_pySet wfPair d i _ hwf hstored
  | patchOne i p =>
    cases hg : pyGet d i with
    | none =>
      simp only [runRequest, edit_item, hg]
      exact ⟨rfl, hwf⟩
    | some stored =>
      have hok : validOk stored = true := validOk_of_pyGet d i stored hwf hg
      cases hv : validateItem stored with
      | error e => simp [validOk, hv] at hok
      | ok m =>
        simp only [runRequest, edit_item, hg, hv]
        refine ⟨rfl, ?_⟩
        exact all_pySet wfPair d i _ hwf
          (by simpa [wfPair] using validOk_copyUpdate m p hnf)
  | remove i =>
    have hall := all_pyPop wfPair d i hwf
    cases hp : (pyPop d i).1 with
    | none =>
      simp only [runRequest, delete_item, hp]
      exact ⟨rfl, hall⟩
    | some e =>
      simp only [runRequest, delete_item, hp]
      exact ⟨rfl, hall⟩

/-- A whole null-free request sequence from a well-formed registry: every
outcome is boundary-accounted and well-formedness is preserved. -/
theorem runAll_wf (rs : List Request) :
    ∀ d : Registry, wf d = true → rs.all nullFreeReq = true →
      (runAll rs d).1.all wellMapped = true ∧ wf (runAll rs d).2 = true := by
  induction rs with
  | nil =>
    intro d hwf _
    exact ⟨rfl, hwf⟩
  | cons r rs ih =>
    intro d hwf hnf
    simp only [List.all_cons, Bool.and_eq_true] at hnf
    have h1 := runRequest_wf r d hwf hnf.1
    have h2 := ih (runRequest r d).2 h1.2 hnf.2
    simp only [runAll, List.all_cons, Bool.and_eq_true]
    exact ⟨⟨h1.1, h2.1⟩, h2.2⟩

/-- `items.pop(k, None)` returns exactly what `items.get(k)` would. -/
theorem pyPop_fst (d : Registry) (k : String) : (pyPop d k).1 = pyGet d k := by
  induction d with
  | nil => rfl
  | cons hd tl ih =>
    obtain ⟨k0, v0⟩ := hd
    by_cases h : k0 = k <;> simp [pyPop, pyGet, h, ih]

/-- A record that validates is exactly the encoding of the validated item. -/
theorem validateItem_ok_inv (e : EncodedItem) (m : Item)
    (h : validateItem e = .ok m) : e = jsonable_encoder m := by
  obtain ⟨n, dsc, p, t⟩ := e
  cases n with
  | none => simp [validateItem] at h
  | some n =>
    cases dsc with
    | none => simp [validateItem] at h
    | some dsc =>
      cases p with
      | none => simp [validateItem] at h
      | some p =>
        cases t with
        | none => simp [validateItem] at h
        | some t =>
          simp only [validateItem, Except.ok.injEq] at h
          subst h
          rfl

/-- In a registry with no null values, a non-None `get` is key membership. -/
theorem pyGet_isSome_iff_mem (items : Registry) (item_id : String)
    (h : noNull items = true) :
    (pyGet items item_id).isSome = true ↔ item_id ∈ keys items := by
  induction items with
  | nil => simp [pyGet, keys]
  | cons hd tl ih =>
    obtain ⟨k0, v0⟩ := hd
    simp only [noNull, List.all_cons, Bool.and_eq_true] at h
    rw [keys_cons]
    by_cases he : k0 = item_id
    · subst he
      simp [pyGet, h.1]
    · have ih2 := ih h.2
      simp [pyGet, he, List.mem_cons, Ne.symm he, ih2]

/-- In a registry with no null values, a None `get` is key absence. -/
theorem pyGet_none_iff_not_mem (items : Registry) (item_id : String)
    (h : noNull items = true) :
    pyGet items item_id = none ↔ item_id ∉ keys items := by
  rw [← pyGet_isSome_iff_mem items item_id h]
  cases pyGet items item_id <;> simp

/-- Every operation stores only non-null values. -/
theorem runRequest_noNull (r : Request) (items : Registry)
    (h : noNull items = true) : noNull (runRequest r items).2 = true := by
  cases r with
  | listAll => exact h
  | getOne i => exact h
  | create b i it =>
    by_cases hc : (pyGet items i).isSome = true
    · simpa [runRequest, create_item, hc] using h
    · simp only [runRequest, create_item, if_neg hc]
      exact all_pySet _ items i _ h rfl
  | replace i it =>
    cases hg : pyGet items i with
    | none => simpa [runRequest, update_item, hg] using h
    | some stored =>
      simp only [runRequest, update_item, hg]
      exact all_pySet _ items i _ h rfl
  | patchOne i p =>
    cases hg : pyGet items i with
    | none => simpa [runRequest, edit_item, hg] using h
    | some stored =>
      cases hv : validateItem stored with
      | error e => simpa [runRequest, edit_item, hg, hv] using h
      | ok m =>
        simp only [runRequest, edit_item, hg, hv]
        exact all_pySet _ items i _ h rfl
  | remove i =>
    cases hp : (pyPop items i).1 with
    | none =>
      simp only [runRequest, delete_item, hp]
      exact all_pyPop _ items i h
    | some e =>
      simp only [runRequest, delete_item, hp]
      exact all_pyPop _ items i h

/-- Create on an absent id: 201, the item as body, the Location header, and
the encoded item stored. -/
theorem create_item_success (b item_id : String) (it : Item) (d : Registry)
    (h : pyGet d item_id = none) :
    create_item b item_id it d =
      (.created 201 it (b ++ "items/" ++ item_id),
        pySet d item_id (some (jsonable_encoder it))) := by
  simp [create_item, h]

/-- Create on a non-None entry: 409 with the conflict message, no mutation. -/
theorem create_item_conflict (b item_id : String) (it : Item) (d : Registry)
    (e : EncodedItem) (h : pyGet d item_id = some e) :
    create_item b item_id it d =
      (.jsonMessage 409 ("Item with id " ++ squote item_id ++ " already exists."), d) := by
  simp [create_item, h]

/-- Claim C1: Replace (PUT) on an absent id fails with NotFound (404) and
does not mutate the registry; on a present id the previously-stored record
is re-stored unchanged, so for every payload the registry entry after the
call equals the entry before — the supplied payload's fields are never
written. -/
theorem replace_ignores_payload (item_id : String) (item : Item)
    (items : Registry) :
    (pyGet items item_id = none →
      update_item item_id item items =
        (.jsonMessage 404 ("Item with id " ++ squote item_id ++ " does not exist."),
          items)) ∧
    (∀ stored, pyGet items item_id = some stored →
      (update_item item_id item items).1 = .noContent 204 ∧
      pyGet (update_item item_id item items).2 item_id = some stored) := by
  constructor
  · intro h
    simp [update_item, h]
  · intro stored h
    have hres : update_item item_id item items =
        (.noContent 204, pySet items item_id (some stored)) := by
      simp [update_item, h]
    rw [hres]
    exact ⟨rfl, pyGet_pySet_self items item_id (some stored)⟩

/-- Witness for C1: on the sample registry, replacing "soda" with the
`pizza` payload re-stores the encoded soda record; replacing an absent id
returns 404 and leaves the empty registry empty. -/
theorem replace_ignores_payload_witness :
    (update_item "pizza" soda [] =
      (.jsonMessage 404 ("Item with id " ++ squote "pizza" ++ " does not exist."),
        [])) ∧
    ((update_item "soda" pizza sodaReg).1 = .noContent 204 ∧
      pyGet (update_item "soda" pizza sodaReg).2 "soda" =
        some (jsonable_encoder soda)) :=
  ⟨(replace_ignores_payload "pizza" soda []).1 rfl,
    (replace_ignores_payload "soda" pizza sodaReg).2 (jsonable_encoder soda) rfl⟩

/-- Counterexample for C2 as stated: the id "soda" is present in
`poisonedReg` — a state the program itself reaches by a create followed by
the schema-valid patch `{"price": null}` — yet PATCHing it with a price of
2 does not overwrite the price (or anything): the handler's `Item(**item)`
call raises, an unhandled fault escapes, and the entry keeps its null
price. -/
theorem edit_item_exact_frame_counterexample :
    pyGet poisonedReg "soda" = some poisonedRec ∧
    edit_item "soda" { price := some (some 2) } poisonedReg =
      (.fault "value is not a valid Item", poisonedReg) ∧
    pyGet (edit_item "soda" { price := some (some 2) } poisonedReg).2 "soda" =
      some poisonedRec := by
  refine ⟨by decide, by decide, by decide⟩

/-- Claim C2, amended: PATCH on a present id *whose stored record still
validates as an `Item`* (true of every state reached without a null-valued
patch field) overwrites exactly the fields present in the patch with the
patch's transmitted values — an explicit null included — and every field
omitted from the patch retains its previous stored value; the merged record
is stored as one atomic encoded write. On a present id whose stored record
no longer validates, the operation instead faults (see the
counterexample). -/
theorem edit_item_exact_frame (item_id : String) (patch : PartialItem)
    (items : Registry) (stored : EncodedItem) (m : Item)
    (hg : pyGet items item_id = some stored)
    (hv : validateItem stored = .ok m) :
    (edit_item item_id patch items).1 = .noContent 204 ∧
    pyGet (edit_item item_id patch items).2 item_id =
      some (copyUpdate m patch) ∧
    stored = jsonable_encoder m ∧
    (∀ v, patch.name = some v → (copyUpdate m patch).name = v) ∧
    (patch.name = none → (copyUpdate m patch).name = stored.name) ∧
    (∀ v, patch.description = some v → (copyUpdate m patch).description = v) ∧
    (patch.description = none → (copyUpdate m patch).description = stored.description) ∧
    (∀ v, patch.price = some v → (copyUpdate m patch).price = v) ∧
    (patch.price = none → (copyUpdate m patch).price = stored.price) ∧
    (∀ v, patch.tags = some v → (copyUpdate m patch).tags = v) ∧
    (patch.tags = none → (copyUpdate m patch).tags = stored.tags) := by
  have hse := validateItem_ok_inv stored m hv
  refine ⟨?_, ?_, hse, ?_, ?_, ?_, ?_, ?_, ?_, ?_, ?_⟩
  · simp [edit_item, hg, hv]
  · simp [edit_item, hg, hv, pyGet_pySet_self]
  · intro v hp; simp [copyUpdate, hp]
  · intro hp; simp [copyUpdate, hp, hse, jsonable_encoder]
  · intro v hp; simp [copyUpdate, hp]
  · intro hp; simp [copyUpdate, hp, hse, jsonable_encoder]
  · intro v hp; simp [copyUpdate, hp]
  · intro hp; simp [copyUpdate, hp, hse, jsonable_encoder]
  · intro v hp; simp [copyUpdate, hp]
  · intro hp; simp [copyUpdate, hp, hse, jsonable_encoder]

/-- Witness for the amended C2: patching only the price of the validly
stored sample item changes only the price; name, description and tags keep
their prior stored values. -/
theorem edit_item_exact_frame_witness :
    (edit_item "soda" { price := some (some 2) } sodaReg).1 = .noContent 204 ∧
    pyGet (edit_item "soda" { price := some (some 2) } sodaReg).2 "soda" =
      some (copyUpdate soda { price := some (some 2) }) ∧
    (copyUpdate soda { price := some (some 2) }).price = some 2 ∧
    (copyUpdate soda { price := some (some 2) }).name =
      (jsonable_encoder soda).name ∧
    (copyUpdate soda { price := some (some 2) }).description =
      (jsonable_encoder soda).description ∧
    (copyUpdate soda { price := some (some 2) }).tags =
      (jsonable_encoder soda).tags := by
  have h := edit_item_exact_frame "soda" { price := some (some 2) } sodaReg
    (jsonable_encoder soda) soda rfl rfl
  exact ⟨h.1, h.2.1, h.2.2.2.2.2.2.2.1 (some 2) rfl, h.2.2.2.2.1 rfl,
    h.2.2.2.2.2.2.1 rfl, h.2.2.2.2.2.2.2.2.2.2 rfl⟩

/-- Claim C3: after a successful Create, a second Create for the same id
(with any payload and base URL) yields 409 with the "already exists"
message, mutates nothing, and the entry still holds the first payload. -/
theorem create_conflict_semantics (b1 b2 item_id : String)
    (item1 item2 : Item) (items : Registry)
    (h : pyGet items item_id = none) :
    create_item b2 item_id item2 (create_item b1 item_id item1 items).2 =
      (.jsonMessage 409 ("Item with id " ++ squote item_id ++ " already exists."),
        (create_item b1 item_id item1 items).2) ∧
    pyGet (create_item b1 item_id item1 items).2 item_id =
      some (jsonable_encoder item1) := by
  have h1 := create_item_success b1 item_id item1 items h
  have hget : pyGet (create_item b1 item_id item1 items).2 item_id =
      some (jsonable_encoder item1) := by
    rw [h1]
    exact pyGet_pySet_self items item_id _
  exact ⟨create_item_conflict b2 item_id item2 _ _ hget, hget⟩

/-- Witness for C3: creating "soda" twice on the empty registry conflicts
the second time and keeps the first payload. -/
theorem create_conflict_semantics_witness :
    create_item "http://t/" "soda" pizza
        (create_item "http://t/" "soda" soda []).2 =
      (.jsonMessage 409 ("Item with id " ++ squote "soda" ++ " already exists."),
        (create_item "http://t/" "soda" soda []).2) ∧
    pyGet (create_item "http://t/" "soda" soda []).2 "soda" =
      some (jsonable_encoder soda) :=
  create_conflict_semantics "http://t/" "http://t/" "soda" soda pizza [] rfl

/-- Claim C4: Create on an absent id succeeds (201, body = the item) and a
subsequent Get returns the stored record, which is exactly the encoding of
the created item (it validates back to an equal item). -/
theorem create_then_get (b item_id : String) (item : Item) (items : Registry)
    (h : pyGet items item_id = none) :
    (create_item b item_id item items).1 =
      .created 201 item (b ++ "items/" ++ item_id) ∧
    (get_item item_id (create_item b item_id item items).2).1 =
      .jsonBody 200 (some (jsonable_encoder item)) ∧
    validateItem (jsonable_encoder item) = .ok item := by
  have h1 := create_item_success b item_id item items h
  refine ⟨by rw [h1], ?_, validateItem_jsonable_encoder item⟩
  simp only [get_item]
  rw [h1]
  rw [pyGet_pySet_self]

/-- Witness for C4: creating "soda" on the empty registry then getting it
returns the encoded soda record. -/
theorem create_then_get_witness :
    (create_item "http://t/" "soda" soda []).1 =
      .created 201 soda ("http://t/" ++ "items/" ++ "soda") ∧
    (get_item "soda" (create_item "http://t/" "soda" soda []).2).1 =
      .jsonBody 200 (some (jsonable_encoder soda)) ∧
    validateItem (jsonable_encoder soda) = .ok soda :=
  create_then_get "http://t/" "soda" soda [] rfl

/-- Claim C5: Delete on an absent id yields 404 naming the missing id and
leaves the registry unchanged; Delete on a present id (in a duplicate-free
registry) yields an empty 204, a following Get finds nothing, and a second
Delete yields 404 rather than a no-op success. -/
theorem delete_item_semantics (item_id : String) (items : Registry) :
    (item_id ∉ keys items →
      delete_item item_id items =
        (.jsonMessage 404 ("No item with id " ++ squote item_id ++ " found to delete."),
          items)) ∧
    (∀ stored, (keys items).Nodup → pyGet items item_id = some stored →
      (delete_item item_id items).1 = .noContent 204 ∧
      pyGet (delete_item item_id items).2 item_id = none ∧
      (delete_item item_id (delete_item item_id items).2).1 =
        .jsonMessage 404 ("No item with id " ++ squote item_id ++ " found to delete.")) := by
  constructor
  · intro h
    have hp := pyPop_of_not_mem items item_id h
    simp [delete_item, hp]
  · intro stored hnd hg
    have h1 : (pyPop items item_id).1 = some stored := by
      rw [pyPop_fst]
      exact hg
    have hres : delete_item item_id items = (.noContent 204, (pyPop items item_id).2) := by
      simp [delete_item, h1]
    have hnm := not_mem_keys_pyPop items item_id hnd
    have hg2 : pyGet (pyPop items item_id).2 item_id = none :=
      pyGet_eq_none_of_not_mem _ _ hnm
    refine ⟨by rw [hres], by rw [hres]; exact hg2, ?_⟩
    rw [hres]
    have hp2 := pyPop_of_not_mem (pyPop items item_id).2 item_id hnm
    simp [delete_item, hp2]

/-- Witness for C5: deleting an absent id 404s without mutation; deleting
"soda" from the sample registry succeeds, after which a Get finds nothing
and a second Delete 404s. -/
theorem delete_item_semantics_witness :
    (delete_item "pizza" sodaReg =
      (.jsonMessage 404 ("No item with id " ++ squote "pizza" ++ " found to delete."),
        sodaReg)) ∧
    ((delete_item "soda" sodaReg).1 = .noContent 204 ∧
      pyGet (delete_item "soda" sodaReg).2 "soda" = none ∧
      (delete_item "soda" (delete_item "soda" sodaReg).2).1 =
        .jsonMessage 404 ("No item with id " ++ squote "soda" ++ " found to delete.")) :=
  ⟨(delete_item_semantics "pizza" sodaReg).1 (by decide),
    (delete_item_semantics "soda" sodaReg).2 (jsonable_encoder soda)
      (by decide) rfl⟩

/-- Claim C6: PartialUpdate, Replace and Delete on an id absent from the
registry leave the registry state entirely unchanged. -/
theorem absent_id_mutations_noop (item_id : String) (item : Item)
    (patch : PartialItem) (items : Registry) (h : item_id ∉ keys items) :
    (update_item item_id item items).2 = items ∧
    (edit_item item_id patch items).2 = items ∧
    (delete_item item_id items).2 = items := by
  have hg := pyGet_eq_none_of_not_mem items item_id h
  have hp := pyPop_of_not_mem items item_id h
  exact ⟨by simp [update_item, hg], by simp [edit_item, hg],
    by simp [delete_item, hp]⟩

/-- Witness for C6: the three mutating operations on the absent id "pizza"
leave the sample registry unchanged. -/
theorem absent_id_mutations_noop_witness :
    (update_item "pizza" pizza sodaReg).2 = sodaReg ∧
    (edit_item "pizza" { price := some (some 2) } sodaReg).2 = sodaReg ∧
    (delete_item "pizza" sodaReg).2 = sodaReg :=
  absent_id_mutations_noop "pizza" pizza { price := some (some 2) } sodaReg
    (by decide)

/-- Counterexample for C7 as stated: the three-request sequence
create "soda", PATCH `{"price": null}` (schema-valid for `PartialItem`,
hence well formed), PATCH `{}` makes the third handler call raise out of
`Item(**item)` — an unhandled fault, not a structured JSON error — so not
every sequence of well-formed requests is boundary-accounted. -/
theorem requests_never_fault_counterexample :
    ((runAll [Request.create "http://t/" "soda" soda,
        Request.patchOne "soda" nullPricePatch,
        Request.patchOne "soda" {}] []).1).all wellMapped = false := by
  decide

/-- Claim C7, amended: Conflict and NotFound registry failures are always
recovered at the request boundary as structured JSON message bodies with
status 409 and 404; and for every sequence of well-formed requests *in
which no PATCH body sets a field to an explicit null*, every outcome from
the empty start registry is boundary-accounted (a declared success shape or
such a structured error) and never an unhandled fault. A PATCH that does
set a field to null stores a record that makes a later PATCH on that id
raise an unhandled validation fault (see the counterexample). -/
theorem requests_never_fault (rs : List Request)
    (hnf : rs.all nullFreeReq = true) :
    ((runAll rs []).1).all wellMapped = true :=
  (runAll_wf rs [] rfl hnf).1

/-- Witness for the amended C7: a concrete null-free sequence — create,
patch the price to 2, delete, then attempt a conflicting create and a
delete of an absent id — produces only boundary-accounted outcomes. -/
theorem requests_never_fault_witness :
    ([Request.create "http://t/" "soda" soda,
      Request.patchOne "soda" { price := some (some 2) },
      Request.create "http://t/" "soda" pizza,
      Request.remove "soda",
      Request.remove "soda"] : List Request).all nullFreeReq = true ∧
    ((runAll [Request.create "http://t/" "soda" soda,
        Request.patchOne "soda" { price := some (some 2) },
        Request.create "http://t/" "soda" pizza,
        Request.remove "soda",
        Request.remove "soda"] []).1).all wellMapped = true :=
  ⟨by decide,
    requests_never_fault [Request.create "http://t/" "soda" soda,
      Request.patchOne "soda" { price := some (some 2) },
      Request.create "http://t/" "soda" pizza,
      Request.remove "soda",
      Request.remove "soda"] (by decide)⟩

/-- Claim C8: Get returns the stored record for a present id and a JSON
null (under the same 200 status, not a distinct error) for an absent id,
and never mutates the registry. -/
theorem get_item_semantics (item_id : String) (items : Registry) :
    (get_item item_id items).2 = items ∧
    (∀ stored, pyGet items item_id = some stored →
      (get_item item_id items).1 = .jsonBody 200 (some stored)) ∧
    (item_id ∉ keys items →
      (get_item item_id items).1 = .jsonBody 200 none) := by
  refine ⟨rfl, ?_, ?_⟩
  · intro stored h
    simp [get_item, h]
  · intro h
    simp [get_item, pyGet_eq_none_of_not_mem items item_id h]

/-- Witness for C8: on the sample registry, Get of "soda" returns the
stored record, Get of an absent id returns null, and neither mutates. -/
theorem get_item_semantics_witness :
    (get_item "soda" sodaReg).2 = sodaReg ∧
    (get_item "soda" sodaReg).1 = .jsonBody 200 (some (jsonable_encoder soda)) ∧
    (get_item "pizza" sodaReg).1 = .jsonBody 200 none :=
  ⟨(get_item_semantics "soda" sodaReg).1,
    (get_item_semantics "soda" sodaReg).2.1 (jsonable_encoder soda) rfl,
    (get_item_semantics "pizza" sodaReg).2.2 (by decide)⟩

/-- Claim C9: a successful Create responds 201 with the created item as
body and a Location header equal to the request's absolute base URL (which
always ends in a slash) followed by `items/{id}` — i.e. an absolute URL
ending in `/items/{id}`. -/
theorem create_location_contract (b item_id : String) (item : Item)
    (items : Registry) (h : pyGet items item_id = none) :
    (create_item (b ++ "/") item_id item items).1 =
      .created 201 item (b ++ ("/items/" ++ item_id)) := by
  rw [create_item_success (b ++ "/") item_id item items h]
  show ApiResult.created 201 item ((b ++ "/") ++ "items/" ++ item_id) =
    ApiResult.created 201 item (b ++ ("/items/" ++ item_id))
  congr 1
  rw [String.append_assoc, String.append_assoc]
  rfl

/-- Witness for C9: creating "soda" with base URL "http://testserver/"
produces Location "http://testserver/items/soda", which ends in
"/items/soda". -/
theorem create_location_contract_witness :
    (create_item ("http://testserver" ++ "/") "soda" soda []).1 =
      .created 201 soda ("http://testserver" ++ ("/items/" ++ "soda")) ∧
    ("/items/" ++ "soda" : String).data.isSuffixOf
      ("http://testserver" ++ ("/items/" ++ "soda")).data = true :=
  ⟨create_location_contract "http://testserver" "soda" soda [] rfl, by decide⟩

/-- Claim C10: every operation preserves the invariant that no value stored
in the registry is null (all writes store a fully-encoded record), and
under that invariant the create conflict test "entry is not None" is
exactly key membership, while a None result from `get` is exactly key
absence. -/
theorem registry_values_never_null :
    (∀ r items, noNull items = true → noNull (runRequest r items).2 = true) ∧
    (∀ items item_id, noNull items = true →
      ((pyGet items item_id).isSome = true ↔ item_id ∈ keys items)) ∧
    (∀ items item_id, noNull items = true →
      (pyGet items item_id = none ↔ item_id ∉ keys items)) :=
  ⟨fun r items h => runRequest_noNull r items h,
    fun items item_id h => pyGet_isSome_iff_mem items item_id h,
    fun items item_id h => pyGet_none_iff_not_mem items item_id h⟩

/-- Witness for C10: the invariant holds across a concrete create on the
empty registry, and on the sample registry the conflict test coincides with
key membership and the null Get signals absence. -/
theorem registry_values_never_null_witness :
    noNull (runRequest (.create "http://t/" "soda" soda) []).2 = true ∧
    ((pyGet sodaReg "soda").isSome = true ↔ "soda" ∈ keys sodaReg) ∧
    (pyGet sodaReg "pizza" = none ↔ "pizza" ∉ keys sodaReg) :=
  ⟨registry_values_never_null.1 (.create "http://t/" "soda" soda) [] rfl,
    registry_values_never_null.2.1 sodaReg "soda" (by decide),
    registry_values_never_null.2.2 sodaReg "pizza" (by decide)⟩

end ItemsApi
